import Mathlib

/-!
Verification of the audio acquisition and normalization pipeline of
`src/endpoint.py` (`download_and_transcribe`, `inspect_file`).

The Python function performs a linear sequence of effectful steps:
HTTP fetch, empty-download check, MIME sniffing (diagnostic only), an
ordered three-strategy ffmpeg conversion loop with early exit on the
first zero exit status, an empty-WAV check, a best-effort ffprobe
inspection whose result is discarded, and finally a whisper
transcription whose text is stripped of surrounding whitespace.

We embed this as a pure function over an `Env` describing the outcome
of every external effect (the HTTP response, the exit status or raised
exception of each ffmpeg strategy, the size of the produced WAV file,
the ffprobe invocation outcome, and the engine's text).  The embedding
additionally returns an ordered trace of `Event`s recording which
external collaborators were invoked and which diagnostic log lines
were emitted, so that claims of the form "X is never invoked" and
"the error output is recorded for diagnostics" are directly statable.
-/

/-- An HTTP error as raised by the endpoint: FastAPI `HTTPException`
with a status code and a detail string. -/
structure HTTPException where
  status_code : Nat
  detail : String
deriving DecidableEq, Repr

/-- Outcome of `requests.get(url, ...)` followed by
`response.raise_for_status()`: either a `requests.exceptions.RequestException`
(connection failure, timeout, or non-2xx status) or the downloaded body
bytes (the concatenation of the streamed chunks written to the file). -/
inductive FetchResult where
  | requestException (msg : String)
  | body (bytes : List Nat)
deriving DecidableEq, Repr

/-- The container hint of one entry of `conversion_commands`:
`['-f','ogg']`, `['-f','audio']`, or no `-f` flag. -/
inductive FormatHint where
  | ogg
  | rawAudio
  | auto
deriving DecidableEq, Repr

/-- The fixed, ordered strategy list `conversion_commands` of the source:
try as OGG, then as raw audio, then without a format specification. -/
def conversion_commands : List FormatHint :=
  [FormatHint.ogg, FormatHint.rawAudio, FormatHint.auto]

/-- Outcome of running one ffmpeg strategy via `subprocess.run`:
either the call itself raised an exception, or the process completed
with a return code and captured stderr. -/
inductive StrategyOutcome where
  | exn (msg : String)
  | completed (returncode : Int) (stderr : String)
deriving DecidableEq, Repr

/-- The loop's success test: `result.returncode == 0`.  An exception
raised by the invocation is not a success. -/
def strategySucceeds : StrategyOutcome → Bool
  | StrategyOutcome.completed 0 _ => true
  | _ => false

/-- Observable events of one pipeline run, in order: the fetch, the
MIME sniff of the downloaded file, each ffmpeg strategy invocation,
diagnostic log lines, the ffprobe inspection and its (discarded)
report, and the transcription call. -/
inductive Event where
  | fetchIssued
  | mimeSniffed (mime : String)
  | strategyInvoked (h : FormatHint)
  | logLine (line : String)
  | probeInvoked
  | diagReport (r : Option String)
  | transcribeInvoked
deriving DecidableEq, Repr

/-- `true` exactly on `Event.strategyInvoked` events. -/
def isStrategyEvent : Event → Bool
  | Event.strategyInvoked _ => true
  | _ => false

/-- The diagnostic log line emitted for one failed strategy attempt:
`logger.error(f"Conversion attempt failed: {result.stderr}")` for a
nonzero exit status, `logger.error(f"Error during conversion attempt: {str(e)}")`
for a raised exception, nothing for a success. -/
def attemptLog : StrategyOutcome → List Event
  | StrategyOutcome.completed rc stderr =>
      if rc = 0 then [] else [Event.logLine ("Conversion attempt failed: " ++ stderr)]
  | StrategyOutcome.exn msg =>
      [Event.logLine ("Error during conversion attempt: " ++ msg)]

/-- The `for cmd in conversion_commands` loop of the source: attempt
each strategy in order, break on the first zero exit status, record
each invocation and each failure's diagnostic line.  Returns the final
`success` flag and the emitted events. -/
def conversionLoop (d : FormatHint → StrategyOutcome) : List FormatHint → Bool × List Event
  | [] => (false, [])
  | h :: rest =>
    if strategySucceeds (d h) then
      (true, [Event.strategyInvoked h])
    else
      let r := conversionLoop d rest
      (r.1, Event.strategyInvoked h :: (attemptLog (d h) ++ r.2))

/-- The list of strategies actually invoked by the loop: every
strategy up to and including the first successful one. -/
def attemptedStrategies (d : FormatHint → StrategyOutcome) : List FormatHint → List FormatHint
  | [] => []
  | h :: rest =>
    if strategySucceeds (d h) then [h] else h :: attemptedStrategies d rest

/-- Outcomes of all external effects of one run of
`download_and_transcribe`: the HTTP fetch, the MIME type sniffed by
`magic.from_file`, the outcome of each ffmpeg strategy, the size of
the produced WAV file after a successful conversion, the ffprobe
invocation (`Except.error` models a raised exception, `Except.ok` its
captured stdout), and the transcription engine's raw text (or a raised
exception). -/
structure Env where
  fetch : FetchResult
  mime : String
  decode : FormatHint → StrategyOutcome
  wavSize : Nat
  probe : Except String String
  transcribeText : Except String String

/-- Python's `str.strip()` on the engine's text: remove leading and
trailing whitespace characters. -/
def pyStrip (s : String) : String :=
  ⟨((s.data.dropWhile Char.isWhitespace).reverse.dropWhile Char.isWhitespace).reverse⟩

/-- `inspect_file` of the source: invoke ffprobe and return its
stdout; any raised exception is caught and `None` is returned. -/
def inspect_file (probe : Except String String) : Option String :=
  match probe with
  | Except.ok stdout => some stdout
  | Except.error _ => none

/-- `download_and_transcribe` of the source, over an `Env` of external
outcomes.  Returns the endpoint's result — the stripped transcription
text, or the `HTTPException` produced by the handler's
`except` clauses — together with the ordered event trace.
Error mapping, as in the source: a `RequestException` becomes
`HTTPException(500, "Download error: ...")`; the `ValueError`s for an
empty download and an empty WAV become `HTTPException(400, ...)`; the
`RuntimeError` for an exhausted strategy list and any engine failure
become `HTTPException(500, ...)`. -/
def download_and_transcribe (env : Env) : Except HTTPException String × List Event :=
  match env.fetch with
  | FetchResult.requestException msg =>
      (Except.error ⟨500, "Download error: " ++ msg⟩, [Event.fetchIssued])
  | FetchResult.body bytes =>
      if bytes.length = 0 then
        (Except.error ⟨400, "Downloaded file is empty"⟩, [Event.fetchIssued])
      else
        let conv := conversionLoop env.decode conversion_commands
        let events1 := Event.fetchIssued :: Event.mimeSniffed env.mime :: conv.2
        if conv.1 = false then
          (Except.error ⟨500, "All conversion attempts failed"⟩, events1)
        else if env.wavSize = 0 then
          (Except.error ⟨400, "Converted WAV file is empty"⟩, events1)
        else
          let events2 := events1 ++ [Event.probeInvoked, Event.diagReport (inspect_file env.probe)]
          match env.transcribeText with
          | Except.error msg =>
              (Except.error ⟨500, msg⟩, events2 ++ [Event.transcribeInvoked])
          | Except.ok text =>
              (Except.ok (pyStrip text), events2 ++ [Event.transcribeInvoked])

/-- The file name of the downloaded artifact,
`f"audio_{datetime.now().strftime('%Y%m%d_%H%M%S')}.oga"`, as a
function of the formatted second-granularity timestamp string. -/
def temp_oga_path (ts : String) : String := "audio_" ++ ts ++ ".oga"

/-- The file name of the transcoded waveform,
`f"audio_{datetime.now().strftime('%Y%m%d_%H%M%S')}.wav"`, as a
function of the formatted second-granularity timestamp string. -/
def run_wav_path (ts : String) : String := "audio_" ++ ts ++ ".wav"

/-- A pipeline run for the path-collision analysis: runs are distinct
requests (distinguished by `runId`).  The source calls
`datetime.now()` twice per run — once when the `.oga` path is built,
before the body is downloaded, and once when the `.wav` path is
built, after the download completes — so a run carries two formatted
timestamps, and the two need not coincide. -/
structure PipelineRunStamps where
  runId : Nat
  ogaStamp : String
  wavStamp : String
deriving DecidableEq, Repr

/-! ## Helper lemmas about the conversion loop -/

lemma attemptLog_filter (o : StrategyOutcome) :
    (attemptLog o).filter isStrategyEvent = [] := by
  cases o with
  | exn m => simp [attemptLog, isStrategyEvent]
  | completed rc e =>
      by_cases h : rc = 0 <;> simp [attemptLog, h, isStrategyEvent]

lemma attempted_early_exit (e : FormatHint → StrategyOutcome) (l₁ : List FormatHint)
    (h : FormatHint) (l₂ : List FormatHint)
    (hfail : ∀ x ∈ l₁, strategySucceeds (e x) = false)
    (hsucc : strategySucceeds (e h) = true) :
    attemptedStrategies e (l₁ ++ h :: l₂) = l₁ ++ [h] := by
  induction l₁ with
  | nil => simp [attemptedStrategies, hsucc]
  | cons a l ih =>
      have ha : strategySucceeds (e a) = false := hfail a (List.mem_cons_self a l)
      simp [attemptedStrategies, ha,
        ih (fun x hx => hfail x (List.mem_cons_of_mem a hx))]

lemma conversionLoop_strategy_events (d : FormatHint → StrategyOutcome)
    (l : List FormatHint) :
    ((conversionLoop d l).2).filter isStrategyEvent
      = (attemptedStrategies d l).map Event.strategyInvoked := by
  induction l with
  | nil => simp [conversionLoop, attemptedStrategies]
  | cons h rest ih =>
      by_cases hs : strategySucceeds (d h)
      · simp [conversionLoop, attemptedStrategies, hs, isStrategyEvent]
      · simp [conversionLoop, attemptedStrategies, hs, isStrategyEvent,
          List.filter_append, attemptLog_filter, ih]

/-! ## C1 -/

/-- C1: the transcoder applies its strategies in the fixed order
(OGG hint, raw-audio hint, auto-detect) and stops at the first success.
When strategies 1 and 2 fail and strategy 3 succeeds, all three are
invoked in order and the loop reports success; in general a strategy
list whose prefix fails and which then succeeds at `h` never invokes
any strategy after `h`. -/
theorem transcoder_ordered_fallback
    (d : FormatHint → StrategyOutcome)
    (h1 : strategySucceeds (d FormatHint.ogg) = false)
    (h2 : strategySucceeds (d FormatHint.rawAudio) = false)
    (h3 : strategySucceeds (d FormatHint.auto) = true) :
    attemptedStrategies d conversion_commands = conversion_commands
    ∧ (conversionLoop d conversion_commands).1 = true
    ∧ ((conversionLoop d conversion_commands).2).filter isStrategyEvent
        = conversion_commands.map Event.strategyInvoked
    ∧ ∀ (e : FormatHint → StrategyOutcome) (l₁ : List FormatHint)
        (h : FormatHint) (l₂ : List FormatHint),
        (∀ x ∈ l₁, strategySucceeds (e x) = false) →
        strategySucceeds (e h) = true →
        attemptedStrategies e (l₁ ++ h :: l₂) = l₁ ++ [h] := by
  refine ⟨?_, ?_, ?_, attempted_early_exit⟩
  · simp [conversion_commands, attemptedStrategies, h1, h2, h3]
  · simp [conversion_commands, conversionLoop, h1, h2, h3]
  · rw [conversionLoop_strategy_events]
    simp [conversion_commands, attemptedStrategies, h1, h2, h3]

/-- The decode outcomes of a run where the OGG hint fails with a
nonzero exit status, the raw-audio hint raises, and auto-detect
succeeds. -/
def decodeC1 : FormatHint → StrategyOutcome
  | FormatHint.ogg => StrategyOutcome.completed 1 "bad ogg"
  | FormatHint.rawAudio => StrategyOutcome.exn "launch failure"
  | FormatHint.auto => StrategyOutcome.completed 0 ""

/-- Witness for C1 at a concrete decode assignment. -/
theorem transcoder_ordered_fallback_witness :
    attemptedStrategies decodeC1 conversion_commands = conversion_commands
    ∧ (conversionLoop decodeC1 conversion_commands).1 = true :=
  ⟨(transcoder_ordered_fallback decodeC1 rfl rfl rfl).1,
   (transcoder_ordered_fallback decodeC1 rfl rfl rfl).2.1⟩

/-! ## C2 -/

/-- C2: when some strategy reports success but the produced WAV file
has size zero, the run fails with the empty-transcode error
(`HTTPException 400 "Converted WAV file is empty"`), which differs
from the all-conversions-failed error, and no strategy is attempted
after the successful one. -/
theorem empty_transcode_distinct
    (bytes : List Nat) (m : String) (d : FormatHint → StrategyOutcome)
    (p tr : Except String String)
    (hne : bytes.length ≠ 0)
    (hsucc : (conversionLoop d conversion_commands).1 = true) :
    (download_and_transcribe ⟨FetchResult.body bytes, m, d, 0, p, tr⟩).1
      = Except.error ⟨400, "Converted WAV file is empty"⟩
    ∧ (Except.error ⟨400, "Converted WAV file is empty"⟩ : Except HTTPException String)
      ≠ Except.error ⟨500, "All conversion attempts failed"⟩
    ∧ ∀ (e : FormatHint → StrategyOutcome) (l₁ : List FormatHint)
        (h : FormatHint) (l₂ : List FormatHint),
        (∀ x ∈ l₁, strategySucceeds (e x) = false) →
        strategySucceeds (e h) = true →
        attemptedStrategies e (l₁ ++ h :: l₂) = l₁ ++ [h] := by
  refine ⟨?_, by simp, attempted_early_exit⟩
  simp [download_and_transcribe, hne, hsucc]

/-- A decode assignment where the first strategy already succeeds. -/
def decodeAllOk : FormatHint → StrategyOutcome :=
  fun _ => StrategyOutcome.completed 0 ""

/-- Witness for C2 at a concrete run: one downloaded byte, first
strategy succeeds, WAV size zero. -/
theorem empty_transcode_distinct_witness :
    (download_and_transcribe
        ⟨FetchResult.body [0], "audio/ogg", decodeAllOk, 0,
         Except.ok "meta", Except.ok "hello"⟩).1
      = Except.error ⟨400, "Converted WAV file is empty"⟩ :=
  (empty_transcode_distinct [0] "audio/ogg" decodeAllOk
    (Except.ok "meta") (Except.ok "hello") (by decide) rfl).1

/-! ## C3 -/

lemma attemptLog_only_log (o : StrategyOutcome) (e : Event)
    (he : e ∈ attemptLog o) : ∃ line, e = Event.logLine line := by
  cases o with
  | exn m =>
      simp [attemptLog] at he
      exact ⟨_, he⟩
  | completed rc s =>
      by_cases h : rc = 0 <;> simp [attemptLog, h] at he
      exact ⟨_, he⟩

lemma transcribe_not_in_attemptLog (o : StrategyOutcome) :
    Event.transcribeInvoked ∉ attemptLog o := by
  intro hmem
  obtain ⟨line, hline⟩ := attemptLog_only_log o _ hmem
  exact Event.noConfusion hline

lemma transcribe_not_in_loop (d : FormatHint → StrategyOutcome)
    (l : List FormatHint) :
    Event.transcribeInvoked ∉ (conversionLoop d l).2 := by
  induction l with
  | nil => simp [conversionLoop]
  | cons h rest ih =>
      by_cases hs : strategySucceeds (d h) <;>
        simp [conversionLoop, hs, List.mem_append, ih, transcribe_not_in_attemptLog (d h)]

lemma attemptLog_sub_loop (d : FormatHint → StrategyOutcome)
    (l : List FormatHint) (h : FormatHint) (hh : h ∈ l)
    (hfail : ∀ x ∈ l, strategySucceeds (d x) = false)
    (e : Event) (he : e ∈ attemptLog (d h)) :
    e ∈ (conversionLoop d l).2 := by
  induction l with
  | nil => cases hh
  | cons a rest ih =>
      have ha : strategySucceeds (d a) = false := hfail a (List.mem_cons_self a rest)
      rcases List.mem_cons.mp hh with hcase | hcase
      · subst hcase
        simp [conversionLoop, ha, List.mem_append, he]
      · have := ih hcase (fun x hx => hfail x (List.mem_cons_of_mem a hx))
        simp [conversionLoop, ha, List.mem_append, this]

lemma dt_all_fail_eq (bytes : List Nat) (m : String)
    (d : FormatHint → StrategyOutcome) (w : Nat) (p tr : Except String String)
    (hne : bytes.length ≠ 0)
    (hfail : (conversionLoop d conversion_commands).1 = false) :
    download_and_transcribe ⟨FetchResult.body bytes, m, d, w, p, tr⟩
      = (Except.error ⟨500, "All conversion attempts failed"⟩,
         Event.fetchIssued :: Event.mimeSniffed m
           :: (conversionLoop d conversion_commands).2) := by
  simp [download_and_transcribe, hne, hfail]

/-- C3: when every strategy fails, the run fails with
`HTTPException 500 "All conversion attempts failed"`, no transcript is
produced and the transcription engine is never invoked, and the trace
carries each failing strategy's error output as a diagnostic log line
(the captured stderr for a nonzero exit status, the exception text for
a raised exception). -/
theorem all_conversions_failed
    (bytes : List Nat) (m : String) (d : FormatHint → StrategyOutcome)
    (w : Nat) (p tr : Except String String)
    (hne : bytes.length ≠ 0)
    (h1 : strategySucceeds (d FormatHint.ogg) = false)
    (h2 : strategySucceeds (d FormatHint.rawAudio) = false)
    (h3 : strategySucceeds (d FormatHint.auto) = false) :
    (download_and_transcribe ⟨FetchResult.body bytes, m, d, w, p, tr⟩).1
      = Except.error ⟨500, "All conversion attempts failed"⟩
    ∧ (∀ t, (download_and_transcribe ⟨FetchResult.body bytes, m, d, w, p, tr⟩).1
        ≠ Except.ok t)
    ∧ Event.transcribeInvoked
        ∉ (download_and_transcribe ⟨FetchResult.body bytes, m, d, w, p, tr⟩).2
    ∧ (∀ h rc stderr, d h = StrategyOutcome.completed rc stderr → rc ≠ 0 →
        Event.logLine ("Conversion attempt failed: " ++ stderr)
          ∈ (download_and_transcribe ⟨FetchResult.body bytes, m, d, w, p, tr⟩).2)
    ∧ (∀ h msg, d h = StrategyOutcome.exn msg →
        Event.logLine ("Error during conversion attempt: " ++ msg)
          ∈ (download_and_transcribe ⟨FetchResult.body bytes, m, d, w, p, tr⟩).2) := by
  have hfail : (conversionLoop d conversion_commands).1 = false := by
    simp [conversionLoop, conversion_commands, h1, h2, h3]
  have heq := dt_all_fail_eq bytes m d w p tr hne hfail
  have hall : ∀ x ∈ conversion_commands, strategySucceeds (d x) = false := by
    intro x hx
    cases x
    · exact h1
    · exact h2
    · exact h3
  have hmem_lift : ∀ e : Event, e ∈ (conversionLoop d conversion_commands).2 →
      e ∈ (download_and_transcribe ⟨FetchResult.body bytes, m, d, w, p, tr⟩).2 := by
    intro e he
    rw [heq]
    exact List.mem_cons_of_mem _ (List.mem_cons_of_mem _ he)
  refine ⟨?_, ?_, ?_, ?_, ?_⟩
  · rw [heq]
  · intro t
    rw [heq]
    simp
  · rw [heq]
    simp [transcribe_not_in_loop d conversion_commands]
  · intro h rc stderr hd hrc
    refine hmem_lift _ (attemptLog_sub_loop d conversion_commands h ?_ hall _ ?_)
    · cases h <;> simp [conversion_commands]
    · rw [hd]
      simp [attemptLog, hrc]
  · intro h msg hd
    refine hmem_lift _ (attemptLog_sub_loop d conversion_commands h ?_ hall _ ?_)
    · cases h <;> simp [conversion_commands]
    · rw [hd]
      simp [attemptLog]

/-- A decode assignment where every strategy fails: nonzero exit
statuses for the container hints, a raised exception for auto-detect. -/
def decodeAllFail : FormatHint → StrategyOutcome
  | FormatHint.ogg => StrategyOutcome.completed 1 "ogg boom"
  | FormatHint.rawAudio => StrategyOutcome.completed 1 "raw boom"
  | FormatHint.auto => StrategyOutcome.exn "auto boom"

/-- Witness for C3 at a concrete run where all strategies fail. -/
theorem all_conversions_failed_witness :
    (download_and_transcribe
        ⟨FetchResult.body [0], "audio/ogg", decodeAllFail, 7,
         Except.ok "meta", Except.ok "hello"⟩).1
      = Except.error ⟨500, "All conversion attempts failed"⟩
    ∧ Event.logLine ("Conversion attempt failed: " ++ "ogg boom")
        ∈ (download_and_transcribe
            ⟨FetchResult.body [0], "audio/ogg", decodeAllFail, 7,
             Except.ok "meta", Except.ok "hello"⟩).2 :=
  ⟨(all_conversions_failed [0] "audio/ogg" decodeAllFail 7
      (Except.ok "meta") (Except.ok "hello") (by decide) rfl rfl rfl).1,
   (all_conversions_failed [0] "audio/ogg" decodeAllFail 7
      (Except.ok "meta") (Except.ok "hello") (by decide) rfl rfl rfl).2.2.2.1
     FormatHint.ogg 1 "ogg boom" rfl (by decide)⟩

/-! ## C4 -/

/-- C4: an empty response body (zero downloaded bytes) fails the run
with `HTTPException 400 "Downloaded file is empty"` before any
conversion strategy or the transcription engine is invoked. -/
theorem empty_download_never_transcodes
    (bytes : List Nat) (m : String) (d : FormatHint → StrategyOutcome)
    (w : Nat) (p tr : Except String String)
    (hz : bytes.length = 0) :
    (download_and_transcribe ⟨FetchResult.body bytes, m, d, w, p, tr⟩).1
      = Except.error ⟨400, "Downloaded file is empty"⟩
    ∧ (∀ h, Event.strategyInvoked h
        ∉ (download_and_transcribe ⟨FetchResult.body bytes, m, d, w, p, tr⟩).2)
    ∧ Event.transcribeInvoked
        ∉ (download_and_transcribe ⟨FetchResult.body bytes, m, d, w, p, tr⟩).2 := by
  have heq : download_and_transcribe ⟨FetchResult.body bytes, m, d, w, p, tr⟩
      = (Except.error ⟨400, "Downloaded file is empty"⟩, [Event.fetchIssued]) := by
    simp [download_and_transcribe, hz]
  rw [heq]
  exact ⟨rfl, by simp, by simp⟩

/-- Witness for C4 at a concrete run with an empty body. -/
theorem empty_download_never_transcodes_witness :
    (download_and_transcribe
        ⟨FetchResult.body [], "application/octet-stream", decodeAllOk, 44,
         Except.ok "meta", Except.ok "hello"⟩).1
      = Except.error ⟨400, "Downloaded file is empty"⟩ :=
  (empty_download_never_transcodes [] "application/octet-stream" decodeAllOk 44
    (Except.ok "meta") (Except.ok "hello") rfl).1

/-! ## C5 -/

/-- C5: a transport-layer failure (connection failure, timeout, or a
non-2xx status raised by `raise_for_status`) fails the run immediately
with `HTTPException 500 "Download error: ..."`; no conversion
strategy, no probe, and no transcription call ever happens. -/
theorem network_error_immediate
    (msg m : String) (d : FormatHint → StrategyOutcome) (w : Nat)
    (p tr : Except String String) :
    (download_and_transcribe ⟨FetchResult.requestException msg, m, d, w, p, tr⟩).1
      = Except.error ⟨500, "Download error: " ++ msg⟩
    ∧ (∀ h, Event.strategyInvoked h
        ∉ (download_and_transcribe ⟨FetchResult.requestException msg, m, d, w, p, tr⟩).2)
    ∧ Event.transcribeInvoked
        ∉ (download_and_transcribe ⟨FetchResult.requestException msg, m, d, w, p, tr⟩).2
    ∧ Event.probeInvoked
        ∉ (download_and_transcribe ⟨FetchResult.requestException msg, m, d, w, p, tr⟩).2 := by
  exact ⟨rfl, by simp [download_and_transcribe], by simp [download_and_transcribe],
    by simp [download_and_transcribe]⟩

/-! ## C6 -/

/-- C6: the format probe is best-effort and diagnostic only.  A raised
exception inside `inspect_file` is swallowed and becomes an absent
report (`none`), a completed invocation returns its stdout, and the
pipeline's result does not depend on the probe's outcome. -/
theorem probe_best_effort
    (f : FetchResult) (m : String) (d : FormatHint → StrategyOutcome) (w : Nat)
    (p₁ p₂ tr : Except String String) :
    (download_and_transcribe ⟨f, m, d, w, p₁, tr⟩).1
      = (download_and_transcribe ⟨f, m, d, w, p₂, tr⟩).1
    ∧ (∀ msg, inspect_file (Except.error msg) = none)
    ∧ (∀ stdout, inspect_file (Except.ok stdout) = some stdout) := by
  refine ⟨?_, fun msg => rfl, fun stdout => rfl⟩
  cases f with
  | requestException msg => rfl
  | body bytes =>
      by_cases hz : bytes.length = 0
      · simp [download_and_transcribe, hz]
      · by_cases hc : (conversionLoop d conversion_commands).1 = false
        · simp [download_and_transcribe, hz, hc]
        · by_cases hw : w = 0
          · simp [download_and_transcribe, hz, hc, hw]
          · cases tr with
            | error e => simp [download_and_transcribe, hz, hc, hw]
            | ok t => simp [download_and_transcribe, hz, hc, hw]

/-! ## C7 -/

/-- C7: every successful run returns exactly the engine's text with
surrounding whitespace trimmed (`result["text"].strip()`). -/
theorem transcript_is_trimmed_engine_text (env : Env) (t : String)
    (hok : (download_and_transcribe env).1 = Except.ok t) :
    ∃ s, env.transcribeText = Except.ok s ∧ t = pyStrip s := by
  obtain ⟨f, m, d, w, p, tr⟩ := env
  cases f with
  | requestException msg => simp [download_and_transcribe] at hok
  | body bytes =>
      by_cases hz : bytes.length = 0
      · simp [download_and_transcribe, hz] at hok
      · by_cases hc : (conversionLoop d conversion_commands).1 = false
        · simp [download_and_transcribe, hz, hc] at hok
        · by_cases hw : w = 0
          · simp [download_and_transcribe, hz, hc, hw] at hok
          · cases tr with
            | error e => simp [download_and_transcribe, hz, hc, hw] at hok
            | ok s =>
                refine ⟨s, rfl, ?_⟩
                simp [download_and_transcribe, hz, hc, hw] at hok
                exact hok.symm

/-- A run whose audio is silent: the engine recognizes nothing and
returns pure whitespace. -/
def envSilent : Env :=
  ⟨FetchResult.body [0], "audio/ogg", decodeAllOk, 44,
   Except.ok "meta", Except.ok "  "⟩

/-- Witness for C7: a silent clip yields the empty transcript as a
success, not an error, and it is the trimmed engine text. -/
theorem transcript_is_trimmed_engine_text_witness :
    (download_and_transcribe envSilent).1 = Except.ok ""
    ∧ ∃ s, envSilent.transcribeText = Except.ok s ∧ "" = pyStrip s :=
  ⟨rfl, transcript_is_trimmed_engine_text envSilent "" rfl⟩

/-! ## C8 -/

lemma affix_inj (pre suf t₁ t₂ : String)
    (h : pre ++ t₁ ++ suf = pre ++ t₂ ++ suf) : t₁ = t₂ := by
  have hd : pre.data ++ t₁.data ++ suf.data = pre.data ++ t₂.data ++ suf.data :=
    congrArg String.data h
  rw [List.append_assoc, List.append_assoc] at hd
  have h1 : t₁.data ++ suf.data = t₂.data ++ suf.data := List.append_cancel_left hd
  exact String.ext (List.append_cancel_right h1)

lemma oga_ne_wav (u₁ u₂ : String) : temp_oga_path u₁ ≠ run_wav_path u₂ := by
  intro h
  have hd : "audio_".data ++ u₁.data ++ ".oga".data
      = "audio_".data ++ u₂.data ++ ".wav".data := congrArg String.data h
  rw [List.append_assoc, List.append_assoc] at hd
  have h1 : u₁.data ++ ".oga".data = u₂.data ++ ".wav".data :=
    List.append_cancel_left hd
  have h2 : (".oga".data : List Char) = ".wav".data :=
    (List.append_inj' h1 (by decide)).2
  exact absurd h2 (by decide)

/-- C8 counterexample: the naming scheme does not keep distinct runs'
paths distinct.  First pair: two distinct runs that start within the
same second get the very same `.oga` path.  Second pair: two distinct
runs whose start seconds differ still get the same `.wav` path,
because the `.wav` timestamp is taken only after the download
completes — a run starting at 12:00:00 whose conversion begins at
12:00:01 collides with a run that starts at 12:00:01. -/
theorem path_collision_counterexample :
    (⟨0, "20250101_120000", "20250101_120000"⟩ : PipelineRunStamps)
      ≠ ⟨1, "20250101_120000", "20250101_120001"⟩
    ∧ temp_oga_path
        (PipelineRunStamps.ogaStamp ⟨0, "20250101_120000", "20250101_120000"⟩)
      = temp_oga_path
        (PipelineRunStamps.ogaStamp ⟨1, "20250101_120000", "20250101_120001"⟩)
    ∧ (⟨2, "20250101_120000", "20250101_120001"⟩ : PipelineRunStamps)
      ≠ ⟨3, "20250101_120001", "20250101_120001"⟩
    ∧ PipelineRunStamps.ogaStamp ⟨2, "20250101_120000", "20250101_120001"⟩
      ≠ PipelineRunStamps.ogaStamp ⟨3, "20250101_120001", "20250101_120001"⟩
    ∧ run_wav_path
        (PipelineRunStamps.wavStamp ⟨2, "20250101_120000", "20250101_120001"⟩)
      = run_wav_path
        (PipelineRunStamps.wavStamp ⟨3, "20250101_120001", "20250101_120001"⟩) :=
  ⟨by simp, rfl, by simp, by simp, rfl⟩

/-- C8 amended: collision avoidance is only as strong as the two
per-call second-granularity timestamps.  Across any two runs, the
`.oga` paths coincide exactly when the timestamps taken at the start
of their downloads coincide, and the `.wav` paths coincide exactly
when the timestamps taken after their downloads complete coincide (so
runs with distinct start seconds can still collide on `.wav`, see the
counterexample); an `.oga` path never equals a `.wav` path. -/
theorem paths_collide_iff_stamps_collide (r₁ r₂ : PipelineRunStamps) :
    (temp_oga_path r₁.ogaStamp = temp_oga_path r₂.ogaStamp
      ↔ r₁.ogaStamp = r₂.ogaStamp)
    ∧ (run_wav_path r₁.wavStamp = run_wav_path r₂.wavStamp
      ↔ r₁.wavStamp = r₂.wavStamp)
    ∧ ∀ u₁ u₂ : String, temp_oga_path u₁ ≠ run_wav_path u₂ := by
  refine ⟨⟨?_, ?_⟩, ⟨?_, ?_⟩, oga_ne_wav⟩
  · exact fun h => affix_inj "audio_" ".oga" r₁.ogaStamp r₂.ogaStamp h
  · exact fun h => congrArg temp_oga_path h
  · exact fun h => affix_inj "audio_" ".wav" r₁.wavStamp r₂.wavStamp h
  · exact fun h => congrArg run_wav_path h

/-! ## C9 -/

lemma ogg_invoked (d : FormatHint → StrategyOutcome) :
    Event.strategyInvoked FormatHint.ogg ∈ (conversionLoop d conversion_commands).2 := by
  by_cases hs : strategySucceeds (d FormatHint.ogg) <;>
    simp [conversionLoop, conversion_commands, hs]

/-- C9: the sniffed MIME type is diagnostic only.  For any non-empty
downloaded artifact, two runs differing only in the detected MIME type
produce the same result and attempt exactly the same strategies, and
the first strategy is invoked no matter which MIME value was detected
— no MIME value causes rejection. -/
theorem mime_diagnostic_only
    (bytes : List Nat) (m₁ m₂ : String) (d : FormatHint → StrategyOutcome)
    (w : Nat) (p tr : Except String String)
    (hne : bytes.length ≠ 0) :
    (download_and_transcribe ⟨FetchResult.body bytes, m₁, d, w, p, tr⟩).1
      = (download_and_transcribe ⟨FetchResult.body bytes, m₂, d, w, p, tr⟩).1
    ∧ ((download_and_transcribe ⟨FetchResult.body bytes, m₁, d, w, p, tr⟩).2).filter
        isStrategyEvent
      = ((download_and_transcribe ⟨FetchResult.body bytes, m₂, d, w, p, tr⟩).2).filter
        isStrategyEvent
    ∧ Event.strategyInvoked FormatHint.ogg
        ∈ (download_and_transcribe ⟨FetchResult.body bytes, m₁, d, w, p, tr⟩).2 := by
  by_cases hc : (conversionLoop d conversion_commands).1 = false
  · refine ⟨?_, ?_, ?_⟩ <;>
      simp [download_and_transcribe, hne, hc, isStrategyEvent, ogg_invoked d]
  · by_cases hw : w = 0
    · refine ⟨?_, ?_, ?_⟩ <;>
        simp [download_and_transcribe, hne, hc, hw, isStrategyEvent, ogg_invoked d]
    · cases tr with
      | error e =>
          refine ⟨?_, ?_, ?_⟩ <;>
            simp [download_and_transcribe, hne, hc, hw, isStrategyEvent,
              List.filter_append, ogg_invoked d]
      | ok t =>
          refine ⟨?_, ?_, ?_⟩ <;>
            simp [download_and_transcribe, hne, hc, hw, isStrategyEvent,
              List.filter_append, ogg_invoked d]

/-- Witness for C9: two arbitrary distinct MIME values on the same
one-byte artifact. -/
theorem mime_diagnostic_only_witness :
    (download_and_transcribe
        ⟨FetchResult.body [0], "text/plain", decodeAllOk, 44,
         Except.ok "meta", Except.ok "hello"⟩).1
      = (download_and_transcribe
          ⟨FetchResult.body [0], "audio/ogg", decodeAllOk, 44,
           Except.ok "meta", Except.ok "hello"⟩).1 :=
  (mime_diagnostic_only [0] "text/plain" "audio/ogg" decodeAllOk 44
    (Except.ok "meta") (Except.ok "hello") (by decide)).1

/-! ## C10 -/

/-- C10: an exception raised while invoking a strategy (for example a
failure to launch the decoder) is treated exactly like a failed exit
status: the loop proceeds to the next strategy, and when every
strategy raises, the run still fails with the all-conversions-failed
error instead of propagating the exception. -/
theorem strategy_exception_falls_through
    (bytes : List Nat) (m : String) (d : FormatHint → StrategyOutcome)
    (w : Nat) (p tr : Except String String) (e₁ e₂ e₃ : String)
    (hne : bytes.length ≠ 0)
    (h1 : d FormatHint.ogg = StrategyOutcome.exn e₁)
    (h2 : d FormatHint.rawAudio = StrategyOutcome.exn e₂)
    (h3 : d FormatHint.auto = StrategyOutcome.exn e₃) :
    (download_and_transcribe ⟨FetchResult.body bytes, m, d, w, p, tr⟩).1
      = Except.error ⟨500, "All conversion attempts failed"⟩
    ∧ attemptedStrategies d conversion_commands = conversion_commands
    ∧ ∀ (e : FormatHint → StrategyOutcome) (msg : String)
        (h : FormatHint) (l : List FormatHint),
        e h = StrategyOutcome.exn msg →
        attemptedStrategies e (h :: l) = h :: attemptedStrategies e l := by
  have hs1 : strategySucceeds (d FormatHint.ogg) = false := by rw [h1]; rfl
  have hs2 : strategySucceeds (d FormatHint.rawAudio) = false := by rw [h2]; rfl
  have hs3 : strategySucceeds (d FormatHint.auto) = false := by rw [h3]; rfl
  have hfail : (conversionLoop d conversion_commands).1 = false := by
    simp [conversionLoop, conversion_commands, hs1, hs2, hs3]
  refine ⟨?_, ?_, ?_⟩
  · rw [dt_all_fail_eq bytes m d w p tr hne hfail]
  · simp [attemptedStrategies, conversion_commands, hs1, hs2, hs3]
  · intro e msg h l he
    have hs : strategySucceeds (e h) = false := by rw [he]; rfl
    simp [attemptedStrategies, hs]

/-- A decode assignment where every strategy raises: the decoder
binary cannot be launched at all. -/
def decodeAllExn : FormatHint → StrategyOutcome :=
  fun _ => StrategyOutcome.exn "No such file or directory"

/-- Witness for C10 at a concrete run where every invocation raises. -/
theorem strategy_exception_falls_through_witness :
    (download_and_transcribe
        ⟨FetchResult.body [0], "audio/ogg", decodeAllExn, 44,
         Except.ok "meta", Except.ok "hello"⟩).1
      = Except.error ⟨500, "All conversion attempts failed"⟩
    ∧ attemptedStrategies decodeAllExn conversion_commands = conversion_commands :=
  ⟨(strategy_exception_falls_through [0] "audio/ogg" decodeAllExn 44
      (Except.ok "meta") (Except.ok "hello")
      "No such file or directory" "No such file or directory" "No such file or directory"
      (by decide) rfl rfl rfl).1,
   (strategy_exception_falls_through [0] "audio/ogg" decodeAllExn 44
      (Except.ok "meta") (Except.ok "hello")
      "No such file or directory" "No such file or directory" "No such file or directory"
      (by decide) rfl rfl rfl).2.1⟩
